import Mathlib

/-!
Verification of the TikTok publish core of `multiplatform-autoposter`.

The Python modules `tiktok.py`, `main.py` and `db.py` are shallowly embedded
below: pure computations become Lean functions, HTTP traffic is represented by
explicit response values handed to the functions, exceptions become an
`Except` error type, and the process-wide OAuth state map and the SQLite
credential table become explicit association lists threaded through the
handlers.
-/

namespace Autoposter

/-- Constant `CHUNK_SIZE = 10 * 1024 * 1024` (10 MiB) from `tiktok.py`. -/
def CHUNK_SIZE : Nat := 10 * 1024 * 1024

/-- Field `source_info.total_chunk_count` as computed by `_init_video_upload`:
`(file_size + CHUNK_SIZE - 1) // CHUNK_SIZE` (ceiling division). -/
def total_chunk_count (file_size : Nat) : Nat :=
  (file_size + CHUNK_SIZE - 1) / CHUNK_SIZE

/-- The `(offset, length)` pairs of the chunks emitted by the loop of
`_upload_video_chunks`: while `offset < file_size`, `f.read(CHUNK_SIZE)`
yields `min CHUNK_SIZE (file_size - offset)` bytes, the chunk is sent with
inclusive `Content-Range` `[offset, offset + len - 1]`, and `offset`
advances by `len`. -/
def chunkRangesFrom (file_size offset : Nat) : List (Nat × Nat) :=
  if _h : offset < file_size then
    let len := min CHUNK_SIZE (file_size - offset)
    (offset, len) :: chunkRangesFrom file_size (offset + len)
  else
    []
termination_by file_size - offset
decreasing_by
  simp only [CHUNK_SIZE] at *
  omega

/-- All chunk ranges of a file of size `file_size` (the loop starts at
`offset = 0`). -/
def chunkRanges (file_size : Nat) : List (Nat × Nat) :=
  chunkRangesFrom file_size 0

theorem chunkRangesFrom_eq (file_size offset : Nat) :
    chunkRangesFrom file_size offset =
      if offset < file_size then
        (offset, min CHUNK_SIZE (file_size - offset)) ::
          chunkRangesFrom file_size (offset + min CHUNK_SIZE (file_size - offset))
      else [] := by
  rw [chunkRangesFrom]
  split <;> rfl

theorem chunkRangesFrom_spec (file_size offset : Nat) :
    (chunkRangesFrom file_size offset).length
        = (file_size - offset + CHUNK_SIZE - 1) / CHUNK_SIZE
    ∧ (chunkRangesFrom file_size offset).flatMap (fun p => List.range' p.1 p.2)
        = List.range' offset (file_size - offset)
    ∧ ∀ p ∈ chunkRangesFrom file_size offset,
        p.2 = min CHUNK_SIZE (file_size - p.1) ∧ p.1 < file_size := by
  have key : ∀ n offset, file_size - offset ≤ n →
      (chunkRangesFrom file_size offset).length
          = (file_size - offset + CHUNK_SIZE - 1) / CHUNK_SIZE
      ∧ (chunkRangesFrom file_size offset).flatMap (fun p => List.range' p.1 p.2)
          = List.range' offset (file_size - offset)
      ∧ ∀ p ∈ chunkRangesFrom file_size offset,
          p.2 = min CHUNK_SIZE (file_size - p.1) ∧ p.1 < file_size := by
    intro n
    induction n with
    | zero =>
        intro offset hle
        have hnot : ¬ offset < file_size := by omega
        rw [chunkRangesFrom_eq, if_neg hnot]
        have hz : file_size - offset = 0 := by omega
        refine ⟨by simp [hz, CHUNK_SIZE], by simp [hz], ?_⟩
        intro p hp
        exact absurd hp (List.not_mem_nil p)
    | succ n ih =>
        intro offset hle
        rw [chunkRangesFrom_eq]
        by_cases h : offset < file_size
        · rw [if_pos h]
          have hlen : 1 ≤ min CHUNK_SIZE (file_size - offset) := by
            simp only [CHUNK_SIZE]; omega
          obtain ⟨ihl, ihf, ihm⟩ :=
            ih (offset + min CHUNK_SIZE (file_size - offset)) (by omega)
          refine ⟨?_, ?_, ?_⟩
          · simp only [List.length_cons, ihl]
            simp only [CHUNK_SIZE] at *
            omega
          · simp only [List.flatMap_cons, ihf, List.range'_append_1]
            congr 1
            omega
          · intro p hp
            rcases List.mem_cons.mp hp with rfl | hp
            · exact ⟨rfl, h⟩
            · exact ihm p hp
        · rw [if_neg h]
          have hz : file_size - offset = 0 := by omega
          refine ⟨by simp [hz, CHUNK_SIZE], by simp [hz], ?_⟩
          intro p hp
          exact absurd hp (List.not_mem_nil p)
  exact key (file_size - offset) offset le_rfl

/-- C1: for every file size `S`, `_upload_video_chunks` emits exactly
`ceil(S / CHUNK_SIZE)` chunks — the same count that `_init_video_upload`
computes as `total_chunk_count` by ceiling division; the inclusive byte
ranges `[offset, offset + len - 1]` are contiguous, non-overlapping, and
their union is exactly `[0, S)` (their concatenation, in emission order, is
the list `0, 1, ..., S - 1`); and every chunk's length is the unpadded
remainder `min CHUNK_SIZE (S - offset)`. -/
theorem upload_chunking_correct (S : Nat) :
    (chunkRanges S).length = total_chunk_count S
    ∧ (chunkRanges S).flatMap (fun p => List.range' p.1 p.2) = List.range S
    ∧ ∀ p ∈ chunkRanges S, p.2 = min CHUNK_SIZE (S - p.1) ∧ p.1 < S := by
  obtain ⟨hl, hf, hm⟩ := chunkRangesFrom_spec S 0
  refine ⟨?_, ?_, hm⟩
  · rw [chunkRanges, hl, total_chunk_count, Nat.sub_zero]
  · rw [chunkRanges, hf, Nat.sub_zero, List.range_eq_range']

/-- Exceptions of `tiktok.py`, plus the Python runtime error the embedded
functions can hit (`KeyError` on a missing JSON field). -/
inductive TikTokError where
  | apiError (code message : String)
  | missingToken
  | missingOAuthConfig
  | fileNotFound (message : String)
  | keyError (key : String)
deriving DecidableEq, Repr

/-- The `error` object of a TikTok API response; a field is `none` when the
key is absent from the JSON. -/
structure ErrorObj where
  code : Option String
  message : Option String
deriving DecidableEq, Repr

/-- The `data` payload of the init response. -/
structure InitData where
  publish_id : String
  upload_url : String
deriving DecidableEq, Repr

/-- Decoded JSON body of the init endpoint response. -/
structure InitResponse where
  error : Option ErrorObj
  data : Option InitData
deriving DecidableEq, Repr

/-- The `data` payload of the status-fetch response; `status` is `none` when
the key is absent. -/
structure StatusData where
  status : Option String
deriving DecidableEq, Repr

/-- Decoded JSON body of the status-fetch endpoint response. -/
structure StatusResponse where
  error : Option ErrorObj
  data : Option StatusData
deriving DecidableEq, Repr

/-- Response handling of `_init_video_upload` (`tiktok.py`): raise
`TikTokAPIError` unless the code of the error object equals the sentinel
`"ok"`, with fallbacks `"unknown"` / `"Unknown error occurred"` for absent
fields; on success return the `data` payload. -/
def init_video_upload (resp : InitResponse) : Except TikTokError InitData :=
  if (resp.error.bind ErrorObj.code) ≠ some "ok" then
    let error := resp.error.getD ⟨none, none⟩
    .error (.apiError (error.code.getD "unknown")
      (error.message.getD "Unknown error occurred"))
  else
    match resp.data with
    | some d => .ok d
    | none => .error (.keyError "data")

/-- Response handling of `_check_publish_status` (`tiktok.py`): identical
sentinel convention to `init_video_upload`. -/
def check_publish_status (resp : StatusResponse) : Except TikTokError StatusData :=
  if (resp.error.bind ErrorObj.code) ≠ some "ok" then
    let error := resp.error.getD ⟨none, none⟩
    .error (.apiError (error.code.getD "unknown")
      (error.message.getD "Unknown error occurred"))
  else
    match resp.data with
    | some d => .ok d
    | none => .error (.keyError "data")

/-- HTTP statuses accepted for a chunk PUT in `_upload_video_chunks`. -/
def chunkStatusOk (s : Nat) : Bool :=
  s == 200 || s == 201 || s == 206

/-- The loop of `_upload_video_chunks`, with the transport modelled by
`statuses` (the HTTP status of the PUT for chunk index `i`). Returns the
outcome together with the `(chunk_index, offset, len)` of each PUT actually
issued, in order. -/
def uploadChunksFrom (statuses : Nat → Nat) (file_size offset chunk_index : Nat) :
    Except TikTokError Unit × List (Nat × Nat × Nat) :=
  if _h : offset < file_size then
    let len := min CHUNK_SIZE (file_size - offset)
    let s := statuses chunk_index
    if chunkStatusOk s then
      let r := uploadChunksFrom statuses file_size (offset + len) (chunk_index + 1)
      (r.1, (chunk_index, offset, len) :: r.2)
    else
      (.error (.apiError "upload_failed"
        ("Chunk " ++ toString chunk_index ++ " upload failed with status " ++ toString s)),
       [(chunk_index, offset, len)])
  else
    (.ok (), [])
termination_by file_size - offset
decreasing_by
  simp only [CHUNK_SIZE] at *
  omega

/-- Entry point `_upload_video_chunks`: the loop starts at offset 0, chunk index 0. -/
def upload_video_chunks (statuses : Nat → Nat) (file_size : Nat) :
    Except TikTokError Unit × List (Nat × Nat × Nat) :=
  uploadChunksFrom statuses file_size 0 0

/-- Python truthiness of an optional environment string (`not value`):
falsy when the variable is unset or set to the empty string. -/
def truthy : Option String → Bool
  | none => false
  | some s => !(s == "")

/-- Module-level OAuth configuration of `tiktok.py`, read from the
environment: `TIKTOK_CLIENT_KEY` and `TIKTOK_CLIENT_SECRET` have no default
(absent ↦ `none`), while `TIKTOK_REDIRECT_URI` is read with a non-empty
default, so it is always a string — empty only when the variable is set to
the empty string. -/
structure OAuthConfig where
  TIKTOK_CLIENT_KEY : Option String
  TIKTOK_CLIENT_SECRET : Option String
  TIKTOK_REDIRECT_URI : String
deriving DecidableEq, Repr

/-- Decoded JSON body plus HTTP status of the token endpoint response;
`error` is `some` exactly when the body carries an `error` key. -/
structure TokenResponse where
  status_code : Nat
  error : Option String
  error_description : Option String
  message : Option String
  access_token : Option String
  refresh_token : Option String
  expires_in : Option Nat
  token_type : Option String
deriving DecidableEq, Repr

/-- The dict returned by a successful `exchange_code_for_token`. -/
structure TokenBundle where
  access_token : String
  refresh_token : Option String
  expires_in : Option Nat
  token_type : Option String
deriving DecidableEq, Repr

/-- Function `exchange_code_for_token` (`tiktok.py`): config check, then one HTTP
POST. Returns the outcome and the number of POSTs performed (0 when the
config check fails, 1 otherwise). -/
def exchange_code_for_token (cfg : OAuthConfig) (resp : TokenResponse) :
    Except TikTokError TokenBundle × Nat :=
  if !(truthy cfg.TIKTOK_CLIENT_KEY) || !(truthy cfg.TIKTOK_CLIENT_SECRET) then
    (.error .missingOAuthConfig, 0)
  else
    if resp.error.isSome || resp.status_code != 200 then
      (.error (.apiError (resp.error.getD "token_exchange_failed")
        (resp.error_description.getD (resp.message.getD "Token exchange failed"))), 1)
    else
      match resp.access_token with
      | some t => (.ok ⟨t, resp.refresh_token, resp.expires_in, resp.token_type⟩, 1)
      | none => (.error (.keyError "access_token"), 1)

/-- A row of the `tiktok_tokens` table (`db.py`). -/
structure CredRow where
  user_id : Nat
  access_token : String
  refresh_token : Option String
  expires_at : Option Nat
deriving DecidableEq, Repr

/-- Function `save_tiktok_tokens` (`db.py`): `DELETE FROM tiktok_tokens WHERE
user_id = ?` then `INSERT` the new row (appended, as SQLite assigns
increasing rowids). -/
def save_tiktok_tokens (store : List CredRow) (user_id : Nat) (access_token : String)
    (refresh_token : Option String) (expires_at : Option Nat) : List CredRow :=
  (store.filter (fun r => r.user_id != user_id)) ++
    [⟨user_id, access_token, refresh_token, expires_at⟩]

/-- The arguments of one `save_tiktok_tokens` call. -/
structure SaveOp where
  user_id : Nat
  access_token : String
  refresh_token : Option String
  expires_at : Option Nat
deriving DecidableEq, Repr

/-- The row a save call inserts. -/
def SaveOp.row (op : SaveOp) : CredRow :=
  ⟨op.user_id, op.access_token, op.refresh_token, op.expires_at⟩

/-- Apply one save call to the table. -/
def applySave (store : List CredRow) (op : SaveOp) : List CredRow :=
  save_tiktok_tokens store op.user_id op.access_token op.refresh_token op.expires_at

/-- Apply a sequence of save calls, oldest first. -/
def applySaves (store : List CredRow) (ops : List SaveOp) : List CredRow :=
  ops.foldl applySave store

/-- The process-wide `oauth_states` dict of `main.py`, as an association
list from state token to `user_id` (the `created_at` timestamp is never
read by the handlers and is omitted). -/
def statesLookup (states : List (String × Nat)) (state : String) : Option Nat :=
  (states.find? (fun p => p.1 == state)).map Prod.snd

/-- Assignment `oauth_states[state] = (user_id, created_at)` in `tiktok_login`
(`main.py`): dict assignment, keyed uniquely by the state token. -/
def tiktok_login (states : List (String × Nat)) (state : String) (user_id : Nat) :
    List (String × Nat) :=
  (states.filter (fun p => p.1 != state)) ++ [(state, user_id)]

/-- Observable outcome of the `tiktok_callback` route handler. -/
inductive CallbackResult where
  | httpError (status : Nat) (detail : String)
  | success (message : String)
  | uncaught (e : TikTokError)
deriving DecidableEq, Repr

/-- Handler `tiktok_callback` (`main.py`): reject unknown state with HTTP 400, else
`oauth_states.pop(state)`, then exchange the code (outcome modelled by
`exchange`); on success compute `expires_at` from `now` and save the
tokens, on `TikTokAPIError` answer HTTP 502, any other exception escapes
the handler. Returns the result, the new state store and the new
credential store. -/
def tiktok_callback (states : List (String × Nat)) (creds : List CredRow)
    (state : String) (exchange : Except TikTokError TokenBundle) (now : Nat) :
    CallbackResult × List (String × Nat) × List CredRow :=
  match statesLookup states state with
  | none => (.httpError 400 "Invalid or expired state parameter", states, creds)
  | some user_id =>
    let statesAfter := states.filter (fun p => p.1 != state)
    match exchange with
    | .ok td =>
        let expires_at : Option Nat :=
          match td.expires_in with
          | some n => if n != 0 then some (now + n) else none
          | none => none
        (.success "TikTok account linked successfully", statesAfter,
         save_tiktok_tokens creds user_id td.access_token td.refresh_token expires_at)
    | .error (.apiError _ m) =>
        (.httpError 502 ("Failed to link TikTok account: " ++ m), statesAfter, creds)
    | .error e => (.uncaught e, statesAfter, creds)

/-- Function `get_access_token` (`tiktok.py`): read `TIKTOK_ACCESS_TOKEN`, raise
`MissingTokenError` when unset or empty. -/
def get_access_token : Option String → Except TikTokError String
  | none => .error .missingToken
  | some t => if t == "" then .error .missingToken else .ok t

/-- The dict returned by a successful `post_video`. -/
structure PublishOutcome where
  success : Bool
  publish_id : String
  status : String
deriving DecidableEq, Repr

/-- Everything `post_video` observes from outside: the optional
`TIKTOK_ACCESS_TOKEN` environment variable, the file on disk (`none` when
it does not exist, `some size` otherwise), and the decoded responses of
the three network interactions. -/
structure PostWorld where
  env_token : Option String
  file : Option Nat
  init_resp : InitResponse
  chunk_statuses : Nat → Nat
  status_resp : StatusResponse

/-- Orchestrator `post_video` (`tiktok.py`): resolve the credential (explicit argument
verbatim, else environment), check file existence, init the upload, stream
the chunks, fetch the publish status once. Returns the outcome and the
number of status-fetch calls performed. -/
def post_video (w : PostWorld) (file_path : String) (access_token : Option String) :
    Except TikTokError PublishOutcome × Nat :=
  let tokenR : Except TikTokError String :=
    match access_token with
    | none => get_access_token w.env_token
    | some t => .ok t
  match tokenR with
  | .error e => (.error e, 0)
  | .ok _token =>
    match w.file with
    | none => (.error (.fileNotFound ("Video file not found: " ++ file_path)), 0)
    | some file_size =>
      match init_video_upload w.init_resp with
      | .error e => (.error e, 0)
      | .ok init_data =>
        match (upload_video_chunks w.chunk_statuses file_size).1 with
        | .error e => (.error e, 0)
        | .ok _ =>
          match check_publish_status w.status_resp with
          | .error e => (.error e, 1)
          | .ok status_data =>
            (.ok ⟨true, init_data.publish_id, status_data.status.getD "UNKNOWN"⟩, 1)


theorem uploadChunksFrom_eq (statuses : Nat → Nat) (file_size offset chunk_index : Nat) :
    uploadChunksFrom statuses file_size offset chunk_index =
      if offset < file_size then
        let len := min CHUNK_SIZE (file_size - offset)
        let s := statuses chunk_index
        if chunkStatusOk s then
          let r := uploadChunksFrom statuses file_size (offset + len) (chunk_index + 1)
          (r.1, (chunk_index, offset, len) :: r.2)
        else
          (.error (.apiError "upload_failed"
            ("Chunk " ++ toString chunk_index ++ " upload failed with status " ++ toString s)),
           [(chunk_index, offset, len)])
      else
        (.ok (), []) := by
  rw [uploadChunksFrom]
  split <;> rfl

theorem uploadChunksFrom_all_ok (statuses : Nat → Nat) (file_size : Nat)
    (hok : ∀ i, chunkStatusOk (statuses i) = true) :
    ∀ n offset chunk_index, file_size - offset ≤ n →
      uploadChunksFrom statuses file_size offset chunk_index
        = (.ok (), (List.range' chunk_index (chunkRangesFrom file_size offset).length).zip
            (chunkRangesFrom file_size offset)) := by
  intro n
  induction n with
  | zero =>
      intro offset chunk_index hle
      have hnot : ¬ offset < file_size := by omega
      rw [uploadChunksFrom_eq, if_neg hnot, chunkRangesFrom_eq, if_neg hnot]
      rfl
  | succ n ih =>
      intro offset chunk_index hle
      rw [uploadChunksFrom_eq, chunkRangesFrom_eq]
      by_cases h : offset < file_size
      · rw [if_pos h, if_pos h]
        have hlen : 1 ≤ min CHUNK_SIZE (file_size - offset) := by
          simp only [CHUNK_SIZE]; omega
        simp only [hok chunk_index, if_true]
        rw [ih (offset + min CHUNK_SIZE (file_size - offset)) (chunk_index + 1) (by omega)]
        simp [List.range'_succ]
      · rw [if_neg h, if_neg h]
        rfl


theorem uploadChunksFrom_first_fail (statuses : Nat → Nat) (file_size : Nat) :
    ∀ n offset chunk_index i, file_size - offset ≤ n →
      chunk_index ≤ i →
      i - chunk_index < (chunkRangesFrom file_size offset).length →
      chunkStatusOk (statuses i) = false →
      (∀ j, chunk_index ≤ j → j < i → chunkStatusOk (statuses j) = true) →
      (uploadChunksFrom statuses file_size offset chunk_index).1
          = .error (.apiError "upload_failed"
              ("Chunk " ++ toString i ++ " upload failed with status " ++ toString (statuses i)))
      ∧ (uploadChunksFrom statuses file_size offset chunk_index).2.map (fun t => t.1)
          = List.range' chunk_index (i - chunk_index + 1) := by
  intro n
  induction n with
  | zero =>
      intro offset chunk_index i hle hci hlt hbad hgood
      have hnot : ¬ offset < file_size := by omega
      rw [chunkRangesFrom_eq, if_neg hnot] at hlt
      simp at hlt
  | succ n ih =>
      intro offset chunk_index i hle hci hlt hbad hgood
      by_cases h : offset < file_size
      · rw [uploadChunksFrom_eq, if_pos h]
        have hlen : 1 ≤ min CHUNK_SIZE (file_size - offset) := by
          simp only [CHUNK_SIZE]; omega
        by_cases hc : chunk_index = i
        · subst hc
          refine ⟨?_, ?_⟩ <;> simp [hbad]
        · have hgoodc : chunkStatusOk (statuses chunk_index) = true :=
            hgood chunk_index le_rfl (by omega)
          simp only [hgoodc, if_true]
          rw [chunkRangesFrom_eq, if_pos h] at hlt
          simp only [List.length_cons] at hlt
          obtain ⟨ih1, ih2⟩ := ih (offset + min CHUNK_SIZE (file_size - offset))
            (chunk_index + 1) i (by omega) (by omega) (by omega) hbad
            (fun j hj1 hj2 => hgood j (by omega) hj2)
          refine ⟨ih1, ?_⟩
          simp only [List.map_cons, ih2]
          have hn : i - chunk_index + 1 = (i - (chunk_index + 1) + 1) + 1 := by omega
          rw [hn]
          simp [List.range'_succ]
      · exfalso
        rw [chunkRangesFrom_eq, if_neg h] at hlt
        simp at hlt

/-- C4: during a chunked upload, the first chunk whose PUT returns a status
outside 200/201/206 makes `_upload_video_chunks` raise
`TikTokAPIError("upload_failed", ...)` with the failing chunk index and the
response status in the message, and no chunk after it is sent: the PUTs
issued are exactly chunks `0, ..., i`. -/
theorem upload_aborts_on_first_failure (statuses : Nat → Nat) (S i : Nat)
    (hi : i < total_chunk_count S)
    (hbad : chunkStatusOk (statuses i) = false)
    (hgood : ∀ j, j < i → chunkStatusOk (statuses j) = true) :
    (upload_video_chunks statuses S).1
        = .error (.apiError "upload_failed"
            ("Chunk " ++ toString i ++ " upload failed with status " ++ toString (statuses i)))
    ∧ (upload_video_chunks statuses S).2.map (fun t => t.1) = List.range (i + 1) := by
  have hlen : (chunkRangesFrom S 0).length = total_chunk_count S := by
    rw [(chunkRangesFrom_spec S 0).1, Nat.sub_zero]; rfl
  obtain ⟨h1, h2⟩ := uploadChunksFrom_first_fail statuses S S 0 0 i (by omega)
    (Nat.zero_le i) (by omega) hbad (fun j _ hj => hgood j hj)
  refine ⟨h1, ?_⟩
  rw [upload_video_chunks] at *
  rw [h2, List.range_eq_range', Nat.sub_zero]


/-- C5: every init or status-fetch response whose `error.code` is not the
sentinel `"ok"` makes `_init_video_upload` / `_check_publish_status` raise
`TikTokAPIError` with the response code and message verbatim (fallbacks
`"unknown"` / `"Unknown error occurred"` when absent); when `error.code`
is `"ok"` no `TikTokAPIError` is raised. -/
theorem sentinel_check_raises_verbatim (ir : InitResponse) (sr : StatusResponse) :
    (ir.error.bind ErrorObj.code ≠ some "ok" →
      init_video_upload ir = .error (.apiError
        ((ir.error.getD ⟨none, none⟩).code.getD "unknown")
        ((ir.error.getD ⟨none, none⟩).message.getD "Unknown error occurred")))
    ∧ (ir.error.bind ErrorObj.code = some "ok" →
        ∀ c m, init_video_upload ir ≠ .error (.apiError c m))
    ∧ (sr.error.bind ErrorObj.code ≠ some "ok" →
      check_publish_status sr = .error (.apiError
        ((sr.error.getD ⟨none, none⟩).code.getD "unknown")
        ((sr.error.getD ⟨none, none⟩).message.getD "Unknown error occurred")))
    ∧ (sr.error.bind ErrorObj.code = some "ok" →
        ∀ c m, check_publish_status sr ≠ .error (.apiError c m)) := by
  refine ⟨?_, ?_, ?_, ?_⟩
  · intro h
    rw [init_video_upload, if_pos h]
  · intro h c m
    rw [init_video_upload, if_neg (by simp [h])]
    rcases ir.data with _ | d <;> simp
  · intro h
    rw [check_publish_status, if_pos h]
  · intro h c m
    rw [check_publish_status, if_neg (by simp [h])]
    rcases sr.data with _ | d <;> simp

theorem sentinel_check_raises_verbatim_witness :
    ((⟨some ⟨some "spam_risk", some "Too many requests"⟩, none⟩ :
        InitResponse).error.bind ErrorObj.code ≠ some "ok")
    ∧ init_video_upload ⟨some ⟨some "spam_risk", some "Too many requests"⟩, none⟩
        = .error (.apiError "spam_risk" "Too many requests") :=
  ⟨by decide,
   (sentinel_check_raises_verbatim
      ⟨some ⟨some "spam_risk", some "Too many requests"⟩, none⟩ ⟨none, none⟩).1 (by decide)⟩

theorem exchange_posts (cfg : OAuthConfig) (resp : TokenResponse) :
    (exchange_code_for_token cfg resp).2
      = if !(truthy cfg.TIKTOK_CLIENT_KEY) || !(truthy cfg.TIKTOK_CLIENT_SECRET)
        then 0 else 1 := by
  rw [exchange_code_for_token]
  split
  · rfl
  · split
    · rfl
    · rcases hx : resp.access_token with _ | t <;> rfl

/-- C6 amended: `exchange_code_for_token` fails with
`MissingOAuthConfigError` before any network call exactly when the client
key or the client secret is missing (unset or empty); the redirect URI is
not checked. -/
theorem exchange_config_check_iff (cfg : OAuthConfig) (resp : TokenResponse) :
    ((exchange_code_for_token cfg resp).1 = .error .missingOAuthConfig
        ∧ (exchange_code_for_token cfg resp).2 = 0)
      ↔ (truthy cfg.TIKTOK_CLIENT_KEY = false ∨ truthy cfg.TIKTOK_CLIENT_SECRET = false) := by
  constructor
  · intro h
    have hp := exchange_posts cfg resp
    rw [h.2] at hp
    by_cases hc : (!(truthy cfg.TIKTOK_CLIENT_KEY) || !(truthy cfg.TIKTOK_CLIENT_SECRET)) = true
    · simpa only [Bool.or_eq_true, Bool.not_eq_true'] using hc
    · rw [if_neg hc] at hp
      exact absurd hp (by decide)
  · intro h
    have hcond : (!(truthy cfg.TIKTOK_CLIENT_KEY) || !(truthy cfg.TIKTOK_CLIENT_SECRET)) = true := by
      rcases h with h | h <;> simp [h]
    rw [exchange_code_for_token, if_pos hcond]
    exact ⟨rfl, rfl⟩

/-- C6 counterexample: with client key and secret configured but the
redirect URI empty (the module treats an empty string as missing in
`get_authorization_url`), `exchange_code_for_token` does not raise
`MissingOAuthConfigError` — it proceeds to the network call. -/
theorem exchange_redirect_uri_unchecked :
    ((⟨some "key", some "secret", ""⟩ : OAuthConfig).TIKTOK_REDIRECT_URI = "")
    ∧ (exchange_code_for_token ⟨some "key", some "secret", ""⟩
        ⟨200, none, none, none, some "tok", none, none, none⟩).2 = 1
    ∧ (exchange_code_for_token ⟨some "key", some "secret", ""⟩
        ⟨200, none, none, none, some "tok", none, none, none⟩).1
        ≠ .error .missingOAuthConfig := by
  refine ⟨rfl, by decide, ?_⟩
  intro h
  simp [exchange_code_for_token, truthy] at h

/-- C7: with client key and secret configured, `exchange_code_for_token`
raises `TikTokAPIError` exactly when the response body carries an `error`
field or the HTTP status is not 200; the code is taken from `error` (else
`"token_exchange_failed"`), the message from `error_description`, else
`message`, else `"Token exchange failed"`. -/
theorem exchange_api_error_iff (cfg : OAuthConfig) (resp : TokenResponse)
    (hk : truthy cfg.TIKTOK_CLIENT_KEY = true)
    (hs : truthy cfg.TIKTOK_CLIENT_SECRET = true) :
    ((resp.error.isSome = true ∨ resp.status_code ≠ 200) →
      (exchange_code_for_token cfg resp).1
        = .error (.apiError (resp.error.getD "token_exchange_failed")
            (resp.error_description.getD (resp.message.getD "Token exchange failed"))))
    ∧ ((resp.error.isSome = false ∧ resp.status_code = 200) →
        ∀ c m, (exchange_code_for_token cfg resp).1 ≠ .error (.apiError c m)) := by
  constructor
  · intro h
    have hc2 : (resp.error.isSome || resp.status_code != 200) = true := by
      rcases h with h | h <;> simp [h]
    rw [exchange_code_for_token, if_neg (by simp [hk, hs]), if_pos hc2]
  · intro h c m
    rw [exchange_code_for_token, if_neg (by simp [hk, hs]),
      if_neg (by simp [h.1, h.2])]
    rcases hx : resp.access_token with _ | t <;> simp

theorem exchange_api_error_iff_witness :
    truthy (some "k") = true
    ∧ (exchange_code_for_token ⟨some "k", some "s", "http://cb"⟩
        ⟨400, some "invalid_grant", none, none, none, none, none, none⟩).1
        = .error (.apiError "invalid_grant" "Token exchange failed") :=
  ⟨by decide,
   (exchange_api_error_iff ⟨some "k", some "s", "http://cb"⟩
      ⟨400, some "invalid_grant", none, none, none, none, none, none⟩
      (by decide) (by decide)).1 (Or.inr (by decide))⟩

theorem upload_aborts_on_first_failure_witness :
    (1 < total_chunk_count 26214400
      ∧ chunkStatusOk ((fun j => if j == 1 then 500 else 200) 1) = false
      ∧ ∀ j, j < 1 → chunkStatusOk ((fun j => if j == 1 then 500 else 200) j) = true)
    ∧ (upload_video_chunks (fun j => if j == 1 then 500 else 200) 26214400).1
        = .error (.apiError "upload_failed"
            ("Chunk " ++ toString 1 ++ " upload failed with status "
              ++ toString ((fun j => if j == 1 then 500 else 200) 1)))
    ∧ (upload_video_chunks (fun j => if j == 1 then 500 else 200) 26214400).2.map (fun t => t.1)
        = List.range (1 + 1) := by
  have h := upload_aborts_on_first_failure (fun j => if j == 1 then 500 else 200) 26214400 1
    (by decide) (by decide) (by decide)
  exact ⟨⟨by decide, by decide, by decide⟩, h.1, h.2⟩


theorem filter_save_self (store : List CredRow) (u : Nat) (a : String)
    (r : Option String) (e : Option Nat) :
    (save_tiktok_tokens store u a r e).filter (fun row => row.user_id == u)
      = [⟨u, a, r, e⟩] := by
  rw [save_tiktok_tokens, List.filter_append, List.filter_filter]
  have h1 : store.filter (fun a2 => (a2.user_id == u) && (a2.user_id != u)) = [] := by
    apply List.filter_eq_nil_iff.mpr
    intro row _
    by_cases h : row.user_id = u <;> simp [h]
  rw [h1]
  simp

theorem filter_save_other (store : List CredRow) (u : Nat) (op : SaveOp)
    (h : (op.user_id == u) = false) :
    (applySave store op).filter (fun row => row.user_id == u)
      = store.filter (fun row => row.user_id == u) := by
  rw [applySave, save_tiktok_tokens, List.filter_append, List.filter_filter]
  have h2 : List.filter (fun row => row.user_id == u) [(⟨op.user_id, op.access_token,
      op.refresh_token, op.expires_at⟩ : CredRow)] = [] := by
    simp [List.filter_cons, h]
  rw [h2, List.append_nil]
  apply List.filter_congr
  intro row _
  by_cases hru : row.user_id = u
  · have hne : op.user_id ≠ row.user_id := by
      intro hop
      rw [hop, hru] at h
      simp at h
    simp [hru]
    omega
  · simp [hru]

theorem applySaves_other (u : Nat) :
    ∀ (ops : List SaveOp) (store : List CredRow),
      (∀ op ∈ ops, (op.user_id == u) = false) →
      (applySaves store ops).filter (fun row => row.user_id == u)
        = store.filter (fun row => row.user_id == u) := by
  intro ops
  induction ops with
  | nil => intro store _; rfl
  | cons o rest ih =>
      intro store h
      simp only [applySaves, List.foldl_cons]
      rw [show rest.foldl applySave (applySave store o) = applySaves (applySave store o) rest
        from rfl]
      rw [ih (applySave store o) (fun op hop => h op (List.mem_cons_of_mem o hop))]
      exact filter_save_other store u o (h o (List.mem_cons_self o rest))

theorem applySaves_last (u : Nat) :
    ∀ (ops : List SaveOp) (store : List CredRow) (op : SaveOp),
      (ops.filter (fun o => o.user_id == u)).getLast? = some op →
      (applySaves store ops).filter (fun row => row.user_id == u) = [op.row] := by
  intro ops
  induction ops with
  | nil =>
      intro store op h
      simp [List.filter_nil] at h
  | cons o rest ih =>
      intro store op h
      simp only [applySaves, List.foldl_cons]
      rw [show rest.foldl applySave (applySave store o) = applySaves (applySave store o) rest
        from rfl]
      rw [List.filter_cons] at h
      cases hfr : rest.filter (fun o2 => o2.user_id == u) with
      | nil =>
          rw [hfr] at h
          have hnone : ∀ op2 ∈ rest, (op2.user_id == u) = false := by
            intro op2 hop2
            by_contra hne
            have hmem : op2 ∈ rest.filter (fun o2 => o2.user_id == u) :=
              List.mem_filter.mpr ⟨hop2, by revert hne; cases (op2.user_id == u) <;> simp⟩
            rw [hfr] at hmem
            exact absurd hmem (List.not_mem_nil op2)
          by_cases ho : (o.user_id == u) = true
          · rw [if_pos ho] at h
            simp at h
            subst h
            rw [applySaves_other u rest (applySave store o) hnone]
            have hu : o.user_id = u := by
              revert ho
              by_cases hq : o.user_id = u <;> simp [hq]
            rw [applySave, ← hu]
            exact filter_save_self store o.user_id o.access_token o.refresh_token o.expires_at
          · rw [if_neg ho] at h
            simp at h
      | cons x xs =>
          rw [hfr] at h
          have hlast : (rest.filter (fun o2 => o2.user_id == u)).getLast? = some op := by
            rw [hfr]
            by_cases ho : (o.user_id == u) = true
            · rw [if_pos ho] at h
              rw [← h, List.getLast?_cons_cons]
            · rw [if_neg ho] at h
              exact h
          exact ih (applySave store o) op hlast

/-- C8: saving credentials has replace semantics — after any sequence of
`save_tiktok_tokens` calls whose last call for subject `u` is `op`, the
`tiktok_tokens` table holds exactly one row for `u`, carrying the
`access_token`, `refresh_token` and `expires_at` of that most recent
call. -/
theorem save_credential_replace (store : List CredRow) (ops : List SaveOp)
    (u : Nat) (op : SaveOp)
    (hlast : (ops.filter (fun o => o.user_id == u)).getLast? = some op) :
    (applySaves store ops).filter (fun row => row.user_id == u) = [op.row] :=
  applySaves_last u ops store op hlast

theorem save_credential_replace_witness :
    (([⟨1, "tok_a", none, none⟩, ⟨1, "tok_b", some "ref_b", some 99⟩] : List SaveOp).filter
        (fun o => o.user_id == 1)).getLast? = some ⟨1, "tok_b", some "ref_b", some 99⟩
    ∧ (applySaves [⟨1, "old", none, none⟩]
          [⟨1, "tok_a", none, none⟩, ⟨1, "tok_b", some "ref_b", some 99⟩]).filter
        (fun row => row.user_id == 1)
      = [(⟨1, "tok_b", some "ref_b", some 99⟩ : SaveOp).row] :=
  ⟨by decide,
   save_credential_replace [⟨1, "old", none, none⟩]
     [⟨1, "tok_a", none, none⟩, ⟨1, "tok_b", some "ref_b", some 99⟩] 1
     ⟨1, "tok_b", some "ref_b", some 99⟩ (by decide)⟩


theorem statesLookup_filter_self (states : List (String × Nat)) (state : String) :
    statesLookup (states.filter (fun p => p.1 != state)) state = none := by
  rw [statesLookup]
  have h : (states.filter (fun p => p.1 != state)).find? (fun p => p.1 == state) = none := by
    apply List.find?_eq_none.mpr
    intro p hp
    have h2 := (List.mem_filter.mp hp).2
    simp only [bne_iff_ne, ne_eq] at h2
    simp [h2]
  rw [h]
  rfl

theorem tiktok_callback_states_found (states : List (String × Nat)) (creds : List CredRow)
    (state : String) (exchange : Except TikTokError TokenBundle) (now : Nat) (uid : Nat)
    (h : statesLookup states state = some uid) :
    (tiktok_callback states creds state exchange now).2.1
      = states.filter (fun p => p.1 != state) := by
  unfold tiktok_callback
  rw [h]
  rcases exchange with e | td
  · cases e <;> rfl
  · rfl

/-- C3: every CSRF state token is single-use — a callback with a state
token absent from `oauth_states` is rejected with HTTP 400 and changes
nothing; a callback with a stored state is accepted past the state check
(never a 400), removes the entry, and any later callback presenting the
same state token is rejected with HTTP 400. -/
theorem oauth_state_single_use (states : List (String × Nat)) (creds : List CredRow)
    (state : String) (exchange : Except TikTokError TokenBundle) (now : Nat) :
    (statesLookup states state = none →
      tiktok_callback states creds state exchange now
        = (.httpError 400 "Invalid or expired state parameter", states, creds))
    ∧ (∀ uid, statesLookup states state = some uid →
        (∀ d, (tiktok_callback states creds state exchange now).1 ≠ .httpError 400 d)
        ∧ statesLookup (tiktok_callback states creds state exchange now).2.1 state = none
        ∧ ∀ (creds2 : List CredRow) (exchange2 : Except TikTokError TokenBundle) (now2 : Nat),
            (tiktok_callback (tiktok_callback states creds state exchange now).2.1
              creds2 state exchange2 now2).1
              = .httpError 400 "Invalid or expired state parameter") := by
  constructor
  · intro h
    unfold tiktok_callback
    rw [h]
  · intro uid h
    refine ⟨?_, ?_, ?_⟩
    · intro d
      unfold tiktok_callback
      rw [h]
      rcases exchange with e | td
      · cases e <;> simp
      · simp
    · rw [tiktok_callback_states_found states creds state exchange now uid h]
      exact statesLookup_filter_self states state
    · intro creds2 exchange2 now2
      rw [tiktok_callback_states_found states creds state exchange now uid h]
      unfold tiktok_callback
      rw [statesLookup_filter_self states state]

theorem oauth_state_single_use_witness :
    statesLookup [("s1", 7)] "s1" = some 7
    ∧ (tiktok_callback [("s1", 7)] [] "s1" (.ok ⟨"t", none, none, none⟩) 0).1
        ≠ .httpError 400 "Invalid or expired state parameter"
    ∧ statesLookup (tiktok_callback [("s1", 7)] [] "s1"
        (.ok ⟨"t", none, none, none⟩) 0).2.1 "s1" = none
    ∧ (tiktok_callback (tiktok_callback [("s1", 7)] [] "s1"
          (.ok ⟨"t", none, none, none⟩) 0).2.1 [] "s1"
        (.ok ⟨"t", none, none, none⟩) 0).1
        = .httpError 400 "Invalid or expired state parameter" := by
  have h := (oauth_state_single_use [("s1", 7)] [] "s1"
    (.ok ⟨"t", none, none, none⟩) 0).2 7 (by decide)
  exact ⟨by decide, h.1 "Invalid or expired state parameter", h.2.1, h.2.2 [] _ 0⟩

/-- C10: when the token exchange fails with a `TikTokAPIError` during a
callback, the state entry has already been popped — the handler answers
HTTP 502, the state store no longer holds the token, no credential is
saved, and a retry of the callback with the same state token is rejected
as unknown. -/
theorem state_removed_before_failed_exchange (states : List (String × Nat))
    (creds : List CredRow) (state : String) (now : Nat) (uid : Nat) (c m : String)
    (hfound : statesLookup states state = some uid) :
    tiktok_callback states creds state (.error (.apiError c m)) now
      = (.httpError 502 ("Failed to link TikTok account: " ++ m),
         states.filter (fun p => p.1 != state), creds)
    ∧ statesLookup (states.filter (fun p => p.1 != state)) state = none
    ∧ ∀ (creds2 : List CredRow) (exchange2 : Except TikTokError TokenBundle) (now2 : Nat),
        (tiktok_callback (states.filter (fun p => p.1 != state))
          creds2 state exchange2 now2).1
          = .httpError 400 "Invalid or expired state parameter" := by
  refine ⟨?_, statesLookup_filter_self states state, ?_⟩
  · unfold tiktok_callback
    rw [hfound]
  · intro creds2 exchange2 now2
    unfold tiktok_callback
    rw [statesLookup_filter_self states state]

theorem state_removed_before_failed_exchange_witness :
    statesLookup [("s9", 3)] "s9" = some 3
    ∧ tiktok_callback [("s9", 3)] [] "s9"
        (.error (.apiError "invalid_grant" "bad code")) 0
      = (.httpError 502 ("Failed to link TikTok account: " ++ "bad code"),
         ([("s9", 3)] : List (String × Nat)).filter (fun p => p.1 != "s9"), [])
    ∧ (tiktok_callback (([("s9", 3)] : List (String × Nat)).filter
          (fun p => p.1 != "s9")) [] "s9"
        (.error (.apiError "invalid_grant" "bad code")) 0).1
        = .httpError 400 "Invalid or expired state parameter" := by
  have h := state_removed_before_failed_exchange [("s9", 3)] [] "s9" 0 3
    "invalid_grant" "bad code" (by decide)
  exact ⟨by decide, h.1, h.2.2 [] _ 0⟩


theorem get_access_token_cases (t : Option String) :
    (truthy t = false ∧ get_access_token t = .error .missingToken)
    ∨ (truthy t = true ∧ ∃ s, get_access_token t = .ok s) := by
  rcases t with _ | s
  · exact Or.inl ⟨rfl, rfl⟩
  · by_cases h : (s == "") = true
    · left
      exact ⟨by simp [truthy, h], by rw [get_access_token, if_pos h]⟩
    · right
      have h2 : (s == "") = false := by revert h; cases (s == "") <;> simp
      exact ⟨by simp [truthy, h2], s, by rw [get_access_token, if_neg h]⟩

theorem init_video_upload_no_fileNotFound (r : InitResponse) (msg : String) :
    init_video_upload r ≠ .error (.fileNotFound msg) := by
  rw [init_video_upload]
  split
  · simp
  · rcases r.data with _ | d <;> simp

theorem check_publish_status_no_fileNotFound (r : StatusResponse) (msg : String) :
    check_publish_status r ≠ .error (.fileNotFound msg) := by
  rw [check_publish_status]
  split
  · simp
  · rcases r.data with _ | d <;> simp

theorem uploadChunksFrom_shape (statuses : Nat → Nat) (file_size : Nat) :
    ∀ n offset chunk_index, file_size - offset ≤ n →
      (uploadChunksFrom statuses file_size offset chunk_index).1 = .ok ()
      ∨ ∃ m, (uploadChunksFrom statuses file_size offset chunk_index).1
          = .error (.apiError "upload_failed" m) := by
  intro n
  induction n with
  | zero =>
      intro offset chunk_index hle
      have hnot : ¬ offset < file_size := by omega
      rw [uploadChunksFrom_eq, if_neg hnot]
      exact Or.inl rfl
  | succ n ih =>
      intro offset chunk_index hle
      rw [uploadChunksFrom_eq]
      by_cases h : offset < file_size
      · rw [if_pos h]
        have hlen : 1 ≤ min CHUNK_SIZE (file_size - offset) := by
          simp only [CHUNK_SIZE]; omega
        by_cases hs : chunkStatusOk (statuses chunk_index) = true
        · simp only [hs, if_true]
          exact ih (offset + min CHUNK_SIZE (file_size - offset)) (chunk_index + 1) (by omega)
        · have hs2 : chunkStatusOk (statuses chunk_index) = false := by
            revert hs; cases chunkStatusOk (statuses chunk_index) <;> simp
          simp only [hs2, Bool.false_eq_true, if_false]
          exact Or.inr ⟨_, rfl⟩
      · rw [if_neg h]
        exact Or.inl rfl

/-- C2: `post_video` resolves the credential before checking file
existence — with no explicit token, no (truthy) environment token and any
file state, the error is `MissingTokenError`; and a `FileNotFoundError`
can only come out of `post_video` when the file is absent and the
credential resolution succeeded. -/
theorem credential_error_before_file_error :
    (∀ (w : PostWorld) (path : String), truthy w.env_token = false →
      (post_video w path none).1 = .error .missingToken)
    ∧ (∀ (w : PostWorld) (path : String) (tok : Option String) (msg : String),
        (post_video w path tok).1 = .error (.fileNotFound msg) →
        w.file = none ∧ (tok = none → truthy w.env_token = true)) := by
  constructor
  · intro w path henv
    rcases get_access_token_cases w.env_token with ⟨_, hg⟩ | ⟨ht, _⟩
    · simp [post_video, hg]
    · rw [henv] at ht
      simp at ht
  · intro w path tok msg h
    have hfile : w.file = none := by
      rcases hfe : w.file with _ | S
      · rfl
      · exfalso
        have htokR : ∃ t, (match tok with
            | none => get_access_token w.env_token
            | some t2 => Except.ok t2) = Except.ok t := by
          rcases tok with _ | t2
          · rcases get_access_token_cases w.env_token with ⟨_, hg⟩ | ⟨_, t3, hg⟩
            · simp [post_video, hg] at h
            · exact ⟨t3, hg⟩
          · exact ⟨t2, rfl⟩
        obtain ⟨t, htokR⟩ := htokR
        simp only [post_video, htokR, hfe] at h
        rcases hi : init_video_upload w.init_resp with e | d
        · rw [hi] at h
          simp at h
          rw [h] at hi
          exact init_video_upload_no_fileNotFound w.init_resp msg hi
        · rw [hi] at h
          rcases us : (upload_video_chunks w.chunk_statuses S).1 with e2 | u
          · rw [us] at h
            simp at h
            rcases uploadChunksFrom_shape w.chunk_statuses S S 0 0 (by omega) with hok | ⟨m2, hm⟩
            · rw [upload_video_chunks] at us
              rw [us] at hok
              simp at hok
            · rw [upload_video_chunks] at us
              rw [us] at hm
              rw [h] at hm
              simp at hm
          · rw [us] at h
            rcases hst : check_publish_status w.status_resp with e3 | sd
            · rw [hst] at h
              simp at h
              rw [h] at hst
              exact check_publish_status_no_fileNotFound w.status_resp msg hst
            · rw [hst] at h
              simp at h
    refine ⟨hfile, ?_⟩
    intro htok
    subst htok
    by_cases henv : truthy w.env_token = true
    · exact henv
    · exfalso
      have henv2 : truthy w.env_token = false := by
        revert henv; cases truthy w.env_token <;> simp
      rcases get_access_token_cases w.env_token with ⟨_, hg⟩ | ⟨ht, _⟩
      · simp [post_video, hg] at h
      · rw [henv2] at ht
        simp at ht

theorem credential_error_before_file_error_witness :
    truthy (none : Option String) = false
    ∧ (post_video ⟨none, none, ⟨none, none⟩, fun _ => 200, ⟨none, none⟩⟩
        "missing.mp4" none).1 = .error .missingToken :=
  ⟨rfl, credential_error_before_file_error.1
    ⟨none, none, ⟨none, none⟩, fun _ => 200, ⟨none, none⟩⟩ "missing.mp4" rfl⟩

/-- C9: when credential resolution, the init call, every chunk PUT and the
status fetch all succeed, `post_video` returns `success = true`, the
`publish_id` from the init response, and the status string from the single
status-fetch response (default `"UNKNOWN"` when absent); the status
endpoint is called exactly once. -/
theorem post_video_success_result (w : PostWorld) (path : String) (tok : Option String)
    (t : String) (S : Nat) (d : InitData) (sd : StatusData)
    (htok : (match tok with
             | none => get_access_token w.env_token
             | some t2 => Except.ok t2) = Except.ok t)
    (hfile : w.file = some S)
    (hinit : init_video_upload w.init_resp = .ok d)
    (hchunks : ∀ i, chunkStatusOk (w.chunk_statuses i) = true)
    (hstat : check_publish_status w.status_resp = .ok sd) :
    post_video w path tok
      = (.ok ⟨true, d.publish_id, sd.status.getD "UNKNOWN"⟩, 1) := by
  have hup : (upload_video_chunks w.chunk_statuses S).1 = .ok () := by
    rw [upload_video_chunks,
      uploadChunksFrom_all_ok w.chunk_statuses S hchunks S 0 0 (by omega)]
  simp only [post_video, htok, hfile, hinit, hup, hstat]

theorem post_video_success_result_witness :
    init_video_upload ⟨some ⟨some "ok", none⟩, some ⟨"pid123", "http://up"⟩⟩
        = .ok ⟨"pid123", "http://up"⟩
    ∧ post_video
        ⟨none, some 26214400, ⟨some ⟨some "ok", none⟩, some ⟨"pid123", "http://up"⟩⟩,
          fun _ => 200, ⟨some ⟨some "ok", none⟩, some ⟨some "PROCESSING_UPLOAD"⟩⟩⟩
        "video.mp4" (some "tok")
      = (.ok ⟨true, "pid123", "PROCESSING_UPLOAD"⟩, 1) :=
  ⟨rfl,
   post_video_success_result
     ⟨none, some 26214400, ⟨some ⟨some "ok", none⟩, some ⟨"pid123", "http://up"⟩⟩,
       fun _ => 200, ⟨some ⟨some "ok", none⟩, some ⟨some "PROCESSING_UPLOAD"⟩⟩⟩
     "video.mp4" (some "tok") "tok" 26214400 ⟨"pid123", "http://up"⟩
     ⟨some "PROCESSING_UPLOAD"⟩ rfl rfl rfl (fun _ => rfl) rfl⟩

end Autoposter
